import Mathlib

/-!
Shallow embedding of the chemostat media-exchange core
(`src/system_status.py` and `src/media_controller.py`).

Modelling conventions:
* Python floats are modelled as rationals (`ℚ`); `datetime` instants and
  pump on-times are rationals on an abstract time axis.
* Each polling loop of the controller is modelled over an observation
  stream `obs : ℕ → ℚ` (the pump's cumulative on-time minus the loop's
  start reading, as read at the k-th poll) and, where the loop consults
  the water-level sensor, a stream `wl : ℕ → Bool` (the sensor reading at
  the k-th poll).  The guard read, the body read and the immediately
  post-loop read of one iteration are collapsed to the single observation
  of that poll; loop exit is the first poll whose guard fails, found with
  an explicit fuel bound (`none` = the loop did not exit within `fuel`
  polls, i.e. divergence).
* `logging`, `notify_observers`, `time.sleep` and the device on/off/
  hotplate/air-pump actuation are I/O with no effect on the modelled
  state and are omitted.
* A Python exception that the source does not catch
  (`update_dispensed_volumes` raising `ValueError`) makes the surrounding
  procedure return abnormally; in the model the procedure yields `none`.
-/

/-- Pump flow rates in ml/s, from `global_constants.py`. -/
def MEDIA_IN_FLOWRATE : ℚ := 3.4

/-- Outlet pump flow rate in ml/s, from `global_constants.py`. -/
def MEDIA_OUT_FLOWRATE : ℚ := 3.4

/-- Reactor maximum capacity in mL, from `global_constants.py`. -/
def REACTOR_MAX_VOLUME : ℚ := 999.99

/-- `CycleData` from `system_status.py`: information on the active media
cycle.  `state` ranges over the strings the source assigns to it. -/
structure CycleData where
  target_exchange_vol : ℚ
  inlet_ontime : ℚ
  outlet_ontime : ℚ
  state : String
deriving DecidableEq, Repr

/-- `CycleData.__init__`. -/
def CycleData.init (target_exchange_vol : ℚ) : CycleData :=
  { target_exchange_vol := target_exchange_vol
    inlet_ontime := 0
    outlet_ontime := 0
    state := "start" }

/-- `CycleData.get_in_vol`. -/
def CycleData.getInVol (cd : CycleData) : ℚ := MEDIA_IN_FLOWRATE * cd.inlet_ontime

/-- `CycleData.get_out_vol`. -/
def CycleData.getOutVol (cd : CycleData) : ℚ := MEDIA_OUT_FLOWRATE * cd.outlet_ontime

/-- The claim-relevant mutable state of `SystemInfoManager`
(`system_status.py`).  Temperature extrema, the active-device list and
the observer list play no role in the claims and are omitted. -/
structure SysState where
  system_state : String
  error_description : String
  error_time : Option ℚ
  total_media_in : ℚ
  total_media_out : ℚ
  cycle_data : CycleData
  next_cycle : ℚ
deriving DecidableEq, Repr

/-- `SystemInfoManager.__init__` (the claim-relevant fields); `now` is the
construction instant used for `_next_cycle`. -/
def initSysState (now : ℚ) : SysState :=
  { system_state := "standby"
    error_description := "No recorded error."
    error_time := none
    total_media_in := 0
    total_media_out := 0
    cycle_data := CycleData.init 0
    next_cycle := now }

/-- `SystemInfoManager.set_error_state`; `now` models
`datetime.datetime.now()`. -/
def setErrorState (description : String) (now : ℚ) (s : SysState) : SysState :=
  { s with system_state := "error"
           error_description := description
           error_time := some now }

/-- `SystemInfoManager._in_error_state`, exactly as written: when the
state is `'error'` it logs a warning and returns `False`; otherwise it
falls off the end of the function and returns `None`. -/
def inErrorStatePriv (s : SysState) : Option Bool :=
  if s.system_state = "error" then some false else none

/-- Python truthiness of an optional boolean (`None` is falsy). -/
def pyTruthy : Option Bool → Bool
  | none => false
  | some b => b

/-- `SystemInfoManager.begin_media_cycle`:
`if not self._in_error_state(): self._system_state = 'media_exchange'`. -/
def beginMediaCycle (s : SysState) : SysState :=
  if pyTruthy (inErrorStatePriv s) = false then
    { s with system_state := "media_exchange" }
  else s

/-- `SystemInfoManager.end_media_cycle`:
`if not self._in_error_state(): self._system_state = 'standby'`. -/
def endMediaCycle (s : SysState) : SysState :=
  if pyTruthy (inErrorStatePriv s) = false then
    { s with system_state := "standby" }
  else s

/-- `SystemInfoManager.set_next_cycle`. -/
def setNextCycle (t : ℚ) (s : SysState) : SysState :=
  { s with next_cycle := t }

/-- `SystemInfoManager.update_dispensed_volumes`.  The second component
is the raised `ValueError`'s message, `none` when the call returns
normally; the raise happens before any mutation, so on an exception the
state is returned unchanged. -/
def updateDispensedVolumes (s : SysState) : SysState × Option String :=
  if s.cycle_data.state ≠ "done" then
    (s, some ("Expected Cycle to be complete, instead it was \"" ++
              s.cycle_data.state ++ "\""))
  else
    ({ s with
        total_media_in := s.total_media_in + s.cycle_data.getInVol
        total_media_out := s.total_media_out + s.cycle_data.getOutVol
        cycle_data := { s.cycle_data with state := "inactive" } },
     none)

/-! ### Polling loops -/

/-- First index `k` with `start ≤ k < start + fuel` whose guard is false;
`none` when the guard held for all `fuel` consecutive polls. -/
def firstFailFrom (g : ℕ → Bool) : ℕ → ℕ → Option ℕ
  | _, 0 => none
  | start, fuel + 1 => if g start then firstFailFrom g (start + 1) fuel else some start

/-- Exit index of a polling loop: the first poll at which the guard
fails. -/
def firstFail (g : ℕ → Bool) (fuel : ℕ) : Option ℕ :=
  firstFailFrom g 0 fuel

/-- Loop guard of the sensor-bounded pumping loops
(`_fill_reactor`, `_add_media`, `_calibrate`):
`ontime - start < bound and not wl_exceeded()`. -/
def pumpGuard (bound : ℚ) (obs : ℕ → ℚ) (wl : ℕ → Bool) (k : ℕ) : Bool :=
  decide (obs k < bound) && !(wl k)

/-- Loop guard of `_remove_media`'s loop:
`outlet_ontime - start < target_ontime` (no sensor in the guard). -/
def drainGuard (bound : ℚ) (obs : ℕ → ℚ) (k : ℕ) : Bool :=
  decide (obs k < bound)

theorem firstFailFrom_eq_some {g : ℕ → Bool} {start fuel j : ℕ}
    (h : firstFailFrom g start fuel = some j) :
    g j = false ∧ start ≤ j ∧ ∀ k, start ≤ k → k < j → g k = true := by
  induction fuel generalizing start with
  | zero => simp [firstFailFrom] at h
  | succ n ih =>
    by_cases hg : g start = true
    · have h' : firstFailFrom g (start + 1) n = some j := by
        simpa [firstFailFrom, hg] using h
      obtain ⟨h1, h2, h3⟩ := ih h'
      refine ⟨h1, le_trans (Nat.le_succ start) h2, ?_⟩
      intro k hk1 hk2
      rcases Nat.eq_or_lt_of_le hk1 with rfl | hlt
      · exact hg
      · exact h3 k hlt hk2
    · have hj : start = j := by
        simpa [firstFailFrom, hg] using h
      subst hj
      exact ⟨Bool.eq_false_iff.mpr hg, le_refl _, fun k hk1 hk2 => absurd hk1 (by omega)⟩

theorem firstFail_eq_some {g : ℕ → Bool} {fuel j : ℕ}
    (h : firstFail g fuel = some j) :
    g j = false ∧ ∀ k, k < j → g k = true := by
  obtain ⟨h1, _, h3⟩ := firstFailFrom_eq_some h
  exact ⟨h1, fun k hk => h3 k (Nat.zero_le k) hk⟩

theorem firstFail_zero {g : ℕ → Bool} {fuel : ℕ}
    (h0 : g 0 = false) (hf : 0 < fuel) : firstFail g fuel = some 0 := by
  cases fuel with
  | zero => omega
  | succ n => simp [firstFail, firstFailFrom, h0]

/-! ### Media exchange controller (`media_controller.py`) -/

/-- `MediaExchangeController._fill_reactor`.  `wl0` is the pre-loop
sensor reading (line 103); `obs k`/`wl k` are the on-time and sensor
readings at the k-th poll of the fill loop; `now` time-stamps any error.
Returns `none` when the loop does not exit within `fuel` polls; otherwise
`some (state, v)` where `v` is the returned volume (`None` → `none` when
the fatal ceiling branch was taken). -/
def fillReactor (wl0 : Bool) (obs : ℕ → ℚ) (wl : ℕ → Bool) (fuel : ℕ)
    (now : ℚ) (s : SysState) : Option (SysState × Option ℚ) :=
  let s1 := if wl0 then
      setErrorState "Media already at sensor during filling procedure." now s
    else s
  let s2 := beginMediaCycle { s1 with cycle_data := CycleData.init REACTOR_MAX_VOLUME }
  let maxOntime := REACTOR_MAX_VOLUME / MEDIA_IN_FLOWRATE
  let s3 := { s2 with cycle_data := { s2.cycle_data with state := "fill" } }
  match firstFail (pumpGuard maxOntime obs wl) fuel with
  | none => none
  | some j =>
    let s4 := { s3 with cycle_data := { s3.cycle_data with
        inlet_ontime := if j = 0 then s3.cycle_data.inlet_ontime else obs (j - 1) } }
    if maxOntime < obs j then
      some (setErrorState "Vessel filled without triggering waterlevel sensor." now s4, none)
    else
      let s5 := { s4 with cycle_data := { s4.cycle_data with state := "done" } }
      match updateDispensedVolumes s5 with
      | (s6, none) => some (endMediaCycle s6, some s6.cycle_data.getInVol)
      | (_, some _) => none

/-- `MediaExchangeController._remove_media`. -/
def removeMedia (target_ontime : ℚ) (obs : ℕ → ℚ) (wl : ℕ → Bool) (fuel : ℕ)
    (now : ℚ) (s : SysState) : Option (SysState × Bool) :=
  let s0 := { s with cycle_data := { s.cycle_data with state := "drain" } }
  match firstFail (drainGuard target_ontime obs) fuel with
  | none => none
  | some j =>
    let s1 := { s0 with cycle_data := { s0.cycle_data with
        outlet_ontime := if j = 0 then s0.cycle_data.outlet_ontime else obs (j - 1) } }
    if wl j then
      some (setErrorState "Water level exceeded even after media removal." now s1, false)
    else
      some (s1, true)

/-- `MediaExchangeController._add_media`.  After the loop the source
assigns `cd.inlet_ontime` from a fresh on-time read (line 295) and
classifies the pass by `cd.inlet_ontime < target_ontime`. -/
def addMedia (target_ontime : ℚ) (obs : ℕ → ℚ) (wl : ℕ → Bool) (fuel : ℕ)
    (s : SysState) : Option (SysState × Bool) :=
  let s0 := { s with cycle_data := { s.cycle_data with state := "fill" } }
  match firstFail (pumpGuard target_ontime obs wl) fuel with
  | none => none
  | some j =>
    let s1 := { s0 with cycle_data := { s0.cycle_data with inlet_ontime := obs j } }
    if s1.cycle_data.inlet_ontime < target_ontime then
      some ({ s1 with cycle_data := { s1.cycle_data with state := "over" } }, true)
    else
      some ({ s1 with cycle_data := { s1.cycle_data with state := "under" } }, true)

/-- `MediaExchangeController._calibrate`.  `max_calib_amt` is
`flow_per_cycle` (line 320); the loop body accumulates
`inlet_ontime := reading + org_runtime`, and the post-loop decision
compares the fresh reading `rt` with `max_calib_time`. -/
def calibrate (flow_per_cycle : ℚ) (obs : ℕ → ℚ) (wl : ℕ → Bool) (fuel : ℕ)
    (now : ℚ) (s : SysState) : Option (SysState × Bool) :=
  let max_calib_amt := flow_per_cycle
  let max_calib_time := max_calib_amt / MEDIA_IN_FLOWRATE
  let s0 := { s with cycle_data := { s.cycle_data with state := "calib" } }
  let org_runtime := s.cycle_data.inlet_ontime
  match firstFail (pumpGuard max_calib_time obs wl) fuel with
  | none => none
  | some j =>
    let s1 := { s0 with cycle_data := { s0.cycle_data with
        inlet_ontime := if j = 0 then org_runtime else obs (j - 1) + org_runtime } }
    let rt := obs j
    if rt < max_calib_time then
      some ({ s1 with cycle_data := { s1.cycle_data with state := "done" } }, true)
    else
      some (setErrorState "Calibration Failed, Water level not reached."
              now { s1 with cycle_data := { s1.cycle_data with state := "error" } },
            false)

/-- `MediaExchangeController.flow_cycle`.  The three phases read the
sensor/on-time streams of their own polling windows
(`dObs`/`dWl` drain, `fObs`/`fWl` fill, `cObs`/`cWl` calibration);
`target_ontime = flow_per_cycle / MEDIA_OUT_FLOWRATE` is passed to both
the drain and the fill phase (line 200). -/
def flowCycle (flow_per_cycle : ℚ) (dObs : ℕ → ℚ) (dWl : ℕ → Bool)
    (fObs : ℕ → ℚ) (fWl : ℕ → Bool) (cObs : ℕ → ℚ) (cWl : ℕ → Bool)
    (fuel : ℕ) (now : ℚ) (s : SysState) : Option (SysState × Bool) :=
  let target_ontime := flow_per_cycle / MEDIA_OUT_FLOWRATE
  match removeMedia target_ontime dObs dWl fuel now s with
  | none => none
  | some (s1, false) => some (s1, false)
  | some (s1, true) =>
    match addMedia target_ontime fObs fWl fuel s1 with
    | none => none
    | some (s2, false) => some (s2, false)
    | some (s2, true) => calibrate flow_per_cycle cObs cWl fuel now s2

/-- Schedule state owned by `MediaExchangeController`. -/
structure SchedState where
  nextCycleTime : ℚ
  nextNextCycleTime : ℚ
  timeBetweenCycles : ℚ
  flowPerCycle : ℚ
deriving DecidableEq, Repr

/-- Schedule initialization in `MediaExchangeController.__init__`
(lines 70-81), on the time axis in minutes: `time_between_cycles` is
`60 / cycles_per_hour` minutes, `flow_per_cycle` is
`volume * flow_rate / cycles_per_hour`, and the first due time is `now`,
pushed back by `time_between_cycles + first_cycle_delay` when the first
cycle is delayed. -/
def initSched (volume flow_rate cycles_per_hour now first_cycle_delay : ℚ)
    (do_cycle_delay : Bool) : SchedState :=
  let flow_per_hour := volume * flow_rate
  let time_between_cycles := 60 / cycles_per_hour
  let next0 := now
  let next := if do_cycle_delay then next0 + time_between_cycles + first_cycle_delay
    else next0
  { nextCycleTime := next
    nextNextCycleTime := next + time_between_cycles
    timeBetweenCycles := time_between_cycles
    flowPerCycle := flow_per_hour / cycles_per_hour }

/-- `MediaExchangeController._iterate_cycles`. -/
def iterateCycles (c : SchedState) : SchedState :=
  { c with nextCycleTime := c.nextNextCycleTime
           nextNextCycleTime := c.nextNextCycleTime + c.timeBetweenCycles }

/-- `MediaExchangeController.cycle_check`.  `flow` abstracts
`self.flow_cycle()` (any instantiation of `flowCycle`'s streams).  The
result's third component records whether a new Cycle Record was begun
and the phase state machine invoked during this check; `none` models a
check that does not return normally (diverging `flow`, or the uncaught
`ValueError` of `update_dispensed_volumes`). -/
def cycleCheck (now : ℚ) (flow : SysState → Option (SysState × Bool))
    (c : SchedState) (s : SysState) : Option (SchedState × SysState × Bool) :=
  let s1 := if c.nextNextCycleTime < now then setErrorState "Fill cycle missed." now s
    else s
  if c.nextCycleTime < now then
    let c2 := iterateCycles c
    let s2 := setNextCycle c2.nextCycleTime s1
    if s2.system_state = "error" then
      some (c2, s2, false)
    else
      let s3 := beginMediaCycle { s2 with cycle_data := CycleData.init c.flowPerCycle }
      match flow s3 with
      | none => none
      | some (s4, true) =>
        match updateDispensedVolumes s4 with
        | (s5, none) => some (c2, endMediaCycle s5, true)
        | (_, some _) => none
      | some (s4, false) => some (c2, s4, true)
  else
    some (c, s1, false)

/-! ### Concrete fixtures used by witnesses and counterexamples -/

/-- A `SystemInfoManager` state that is in the error mode. -/
def sErrW : SysState := setErrorState "first fault" 0 (initSysState 0)

/-- A state whose cycle record is complete (phase `done`). -/
def sDoneW : SysState :=
  { initSysState 0 with cycle_data :=
      { CycleData.init 0 with state := "done", inlet_ontime := 2, outlet_ontime := 1 } }

/-- On-time stream that reads 0 at the first poll and 1 afterwards. -/
def wObsW : ℕ → ℚ := fun k => if k = 0 then 0 else 1

/-- Sensor stream that never triggers. -/
def wlFalseW : ℕ → Bool := fun _ => false

/-- Sensor stream that is always triggered. -/
def wlTrueW : ℕ → Bool := fun _ => true

/-- A `flow_cycle` stand-in for scheduler-level statements. -/
def flowW : SysState → Option (SysState × Bool) := fun st => some (st, false)

/-! ### Claim theorems -/

/-- C1: claimed no-op of `begin_media_cycle`/`end_media_cycle` in the
error mode.  The code as written leaves the error mode on both calls:
`_in_error_state` returns `False` when the state is `'error'` (and
`None` otherwise), so `not self._in_error_state()` is always truthy and
the state is overwritten.  This theorem evaluates the code at the
failing input: in mode `'error'`, `begin_media_cycle` yields
`'media_exchange'` and `end_media_cycle` yields `'standby'`. -/
theorem beginEndMediaCycle_escape_error (s : SysState)
    (h : s.system_state = "error") :
    (beginMediaCycle s).system_state = "media_exchange" ∧
    (endMediaCycle s).system_state = "standby" := by
  simp [beginMediaCycle, endMediaCycle, inErrorStatePriv, pyTruthy, h]

/-- C1 witness: the escape happens at a concrete error state. -/
theorem beginEndMediaCycle_escape_error_witness :
    (beginMediaCycle sErrW).system_state = "media_exchange" ∧
    (endMediaCycle sErrW).system_state = "standby" :=
  beginEndMediaCycle_escape_error sErrW rfl

/-- C2 counterexample: with the system already in ERROR with description
`"first fault"` recorded at time 0, a second `set_error_state` call
overwrites both the description and the timestamp, so the first fault
does not win. -/
theorem setErrorState_overwrite_cex :
    (setErrorState "second fault" 1 sErrW).error_description = "second fault" ∧
    (setErrorState "second fault" 1 sErrW).error_description ≠ "first fault" ∧
    (setErrorState "second fault" 1 sErrW).error_time = some 1 ∧
    (setErrorState "second fault" 1 sErrW).error_time ≠ some 0 := by
  refine ⟨rfl, ?_, rfl, ?_⟩ <;> decide

/-- C2 amended: every `set_error_state` call — also one made while the
system is already in ERROR — keeps the mode `'error'` but overwrites
`error_description` and `error_time` with the new description and the
call instant (last fault wins). -/
theorem setErrorState_last_fault_wins (s : SysState) (d : String) (t : ℚ)
    (_h : s.system_state = "error") :
    (setErrorState d t s).system_state = "error" ∧
    (setErrorState d t s).error_description = d ∧
    (setErrorState d t s).error_time = some t :=
  ⟨rfl, rfl, rfl⟩

/-- C2 witness: the amended statement at a concrete error state. -/
theorem setErrorState_last_fault_wins_witness :
    (setErrorState "second fault" 1 sErrW).system_state = "error" ∧
    (setErrorState "second fault" 1 sErrW).error_description = "second fault" ∧
    (setErrorState "second fault" 1 sErrW).error_time = some 1 :=
  setErrorState_last_fault_wins sErrW "second fault" 1 rfl

/-- C10: `update_dispensed_volumes` raises `ValueError` iff the cycle
record's phase is not `'done'`; when it raises the state is unchanged
(the raise precedes every mutation), and when it returns normally the
totals grow by the record's in/out volumes and the phase becomes
`'inactive'`. -/
theorem updateDispensedVolumes_raise_iff (s : SysState) :
    ((updateDispensedVolumes s).2.isSome ↔ s.cycle_data.state ≠ "done") ∧
    ((updateDispensedVolumes s).2.isSome → (updateDispensedVolumes s).1 = s) ∧
    ((updateDispensedVolumes s).2 = none →
      (updateDispensedVolumes s).1.cycle_data.state = "inactive" ∧
      (updateDispensedVolumes s).1.total_media_in
        = s.total_media_in + MEDIA_IN_FLOWRATE * s.cycle_data.inlet_ontime ∧
      (updateDispensedVolumes s).1.total_media_out
        = s.total_media_out + MEDIA_OUT_FLOWRATE * s.cycle_data.outlet_ontime) := by
  by_cases h : s.cycle_data.state = "done" <;>
    simp [updateDispensedVolumes, h, CycleData.getInVol, CycleData.getOutVol]

/-- C10 witness: the raising branch leaves a fresh state (phase
`'start'`) unchanged, and the normal branch retires a `'done'` record to
`'inactive'`. -/
theorem updateDispensedVolumes_raise_iff_witness :
    (updateDispensedVolumes (initSysState 0)).1 = initSysState 0 ∧
    (updateDispensedVolumes sDoneW).1.cycle_data.state = "inactive" :=
  ⟨(updateDispensedVolumes_raise_iff (initSysState 0)).2.1 (by decide),
   ((updateDispensedVolumes_raise_iff sDoneW).2.2 (by decide)).1⟩


/-- The fill procedure's hard on-time ceiling,
`REACTOR_MAX_VOLUME / MEDIA_IN_FLOWRATE`. -/
def maxOntimeW : ℚ := REACTOR_MAX_VOLUME / MEDIA_IN_FLOWRATE

/-- On-time stream reaching the ceiling exactly at the second poll. -/
def obsBoundaryW : ℕ → ℚ := fun k => if k = 0 then 0 else maxOntimeW

/-- On-time stream far beyond the ceiling from the first poll. -/
def obsBigW : ℕ → ℚ := fun _ => 1000

/-- On-time stream that always reads 0. -/
def obsZeroW : ℕ → ℚ := fun _ => 0

/-- C3 counterexample: a run of the initial fill procedure in which the
inlet on-time reaches the ceiling exactly (the boundary the claim
includes) and the sensor never triggers: the post-loop check is a strict
`>` against the same ceiling, so the code does not error; it marks the
cycle record done (then inactive), ends in mode `'standby'`, and returns
a fill volume. -/
theorem fillReactor_boundary_cex :
    ((fillReactor false obsBoundaryW wlFalseW 2 0 (initSysState 0)).map
        (fun p => (p.1.system_state, p.1.cycle_data.state, p.2.isSome)))
      = some ("standby", "inactive", true) := by
  have hRM : (0:ℚ) < REACTOR_MAX_VOLUME / MEDIA_IN_FLOWRATE := by
    norm_num [REACTOR_MAX_VOLUME, MEDIA_IN_FLOWRATE]
  have h0 : pumpGuard (REACTOR_MAX_VOLUME / MEDIA_IN_FLOWRATE) obsBoundaryW wlFalseW 0
      = true := by
    simp [pumpGuard, obsBoundaryW, wlFalseW, hRM]
  have h1 : pumpGuard (REACTOR_MAX_VOLUME / MEDIA_IN_FLOWRATE) obsBoundaryW wlFalseW 1
      = false := by
    simp [pumpGuard, obsBoundaryW, wlFalseW, maxOntimeW]
  have hj : firstFail (pumpGuard (REACTOR_MAX_VOLUME / MEDIA_IN_FLOWRATE) obsBoundaryW
      wlFalseW) 2 = some 1 := by
    simp [firstFail, firstFailFrom, h0, h1]
  simp only [fillReactor, hj]
  simp [updateDispensedVolumes, beginMediaCycle, endMediaCycle, lt_self_iff_false,
    inErrorStatePriv, pyTruthy, initSysState, CycleData.init, obsBoundaryW, maxOntimeW]

/-- C3 amended: in the initial fill procedure, whenever the loop exits
with an inlet on-time reading strictly above the hard ceiling and the
water-level sensor never triggered, the run ends in the error mode with
the sensor-fault description time-stamped at the failure, the record is
left in phase `'fill'` (never `'done'`), and no fill volume is returned;
in the boundary case where the reading equals the ceiling exactly the
code instead reports the fill as done (see the counterexample). -/
theorem fillReactor_strict_ceiling_fatal (wl0 : Bool) (obs : ℕ → ℚ)
    (wl : ℕ → Bool) (fuel : ℕ) (now : ℚ) (s : SysState) (j : ℕ)
    (_hw : ∀ k, wl k = false)
    (hj : firstFail (pumpGuard (REACTOR_MAX_VOLUME / MEDIA_IN_FLOWRATE) obs wl) fuel
            = some j)
    (hover : REACTOR_MAX_VOLUME / MEDIA_IN_FLOWRATE < obs j) :
    ((fillReactor wl0 obs wl fuel now s).map
        (fun p => (p.1.system_state, p.1.error_description, p.1.error_time,
                   p.1.cycle_data.state, p.2.isSome)))
      = some ("error", "Vessel filled without triggering waterlevel sensor.",
              some now, "fill", false) := by
  simp only [fillReactor, hj]
  simp [hover, setErrorState]

/-- C3 witness: a run whose first reading is already far beyond the
ceiling hits the amended fatal branch. -/
theorem fillReactor_strict_ceiling_fatal_witness :
    ((fillReactor false obsBigW wlFalseW 1 0 (initSysState 0)).map
        (fun p => (p.1.system_state, p.1.error_description, p.1.error_time,
                   p.1.cycle_data.state, p.2.isSome)))
      = some ("error", "Vessel filled without triggering waterlevel sensor.",
              some 0, "fill", false) :=
  fillReactor_strict_ceiling_fatal false obsBigW wlFalseW 1 0 (initSysState 0) 0
    (fun _ => rfl)
    (firstFail_zero
      (by simp [pumpGuard, obsBigW, wlFalseW]
          norm_num [REACTOR_MAX_VOLUME, MEDIA_IN_FLOWRATE])
      (by decide))
    (by norm_num [obsBigW, REACTOR_MAX_VOLUME, MEDIA_IN_FLOWRATE])

/-- C4 counterexample: with the water-level sensor already (and still)
triggered before the initial fill procedure pumps, the fill loop exits
at its very first poll, the post-loop strict ceiling check does not
fire, and the procedure returns a fill volume with the system in mode
`'standby'` and the error description still the pre-check anomaly
message — not in ERROR with a fill-ceiling description as the claim
requires. -/
theorem fillReactor_presensor_cex :
    ((fillReactor true obsZeroW wlTrueW 1 0 (initSysState 0)).map
        (fun p => (p.1.system_state, p.1.error_description, p.2.isSome)))
      = some ("standby", "Media already at sensor during filling procedure.", true) := by
  have hj : firstFail (pumpGuard (REACTOR_MAX_VOLUME / MEDIA_IN_FLOWRATE) obsZeroW
      wlTrueW) 1 = some 0 :=
    firstFail_zero (by simp [pumpGuard, wlTrueW]) (by decide)
  have hle : ¬ (REACTOR_MAX_VOLUME / MEDIA_IN_FLOWRATE < obsZeroW 0) := by
    norm_num [obsZeroW, REACTOR_MAX_VOLUME, MEDIA_IN_FLOWRATE]
  simp only [fillReactor, hj]
  simp [hle, updateDispensedVolumes, beginMediaCycle, endMediaCycle,
    inErrorStatePriv, pyTruthy, setErrorState, initSysState, CycleData.init]

/-- C4 amended: if the water-level sensor already reads exceeded before
the initial fill procedure starts pumping (and still does at the first
poll), the engine records the anomaly as an error (description
`'Media already at sensor during filling procedure.'`) and still enters
the fill loop, but the loop exits immediately on the triggered sensor;
provided the exit reading does not strictly exceed the ceiling, the fill
is reported done (a volume is returned and the record retired to
`'inactive'`), and — because `begin_media_cycle`/`end_media_cycle` do
not actually refuse to leave the error mode — the procedure terminates
with `system_mode = 'standby'`, the error description being the
pre-check anomaly message rather than a fill-ceiling one. -/
theorem fillReactor_presensor (obs : ℕ → ℚ) (wl : ℕ → Bool) (fuel : ℕ)
    (now : ℚ) (s : SysState)
    (h0 : wl 0 = true)
    (hle : ¬ (REACTOR_MAX_VOLUME / MEDIA_IN_FLOWRATE < obs 0))
    (hf : 0 < fuel) :
    ((fillReactor true obs wl fuel now s).map
        (fun p => (p.1.system_state, p.1.error_description, p.1.error_time,
                   p.1.cycle_data.state, p.2.isSome)))
      = some ("standby", "Media already at sensor during filling procedure.",
              some now, "inactive", true) := by
  have hj : firstFail (pumpGuard (REACTOR_MAX_VOLUME / MEDIA_IN_FLOWRATE) obs wl) fuel
      = some 0 :=
    firstFail_zero (by simp [pumpGuard, h0]) hf
  simp only [fillReactor, hj]
  simp [hle, updateDispensedVolumes, beginMediaCycle, endMediaCycle,
    inErrorStatePriv, pyTruthy, setErrorState, CycleData.init]

/-- C4 witness: the amended behavior at a concrete stuck-sensor run. -/
theorem fillReactor_presensor_witness :
    ((fillReactor true obsZeroW wlTrueW 1 0 (initSysState 0)).map
        (fun p => (p.1.system_state, p.1.error_description, p.1.error_time,
                   p.1.cycle_data.state, p.2.isSome)))
      = some ("standby", "Media already at sensor during filling procedure.",
              some 0, "inactive", true) :=
  fillReactor_presensor obsZeroW wlTrueW 1 0 (initSysState 0) rfl
    (by norm_num [obsZeroW, REACTOR_MAX_VOLUME, MEDIA_IN_FLOWRATE]) (by decide)

/-- C5: whenever the FILL phase is entered (`_add_media`), the pass ends
with the record's phase set by `inlet_ontime < target_ontime` at the exit
poll: `'over'` exactly when the sensor triggered strictly before the
on-time reached `target_ontime`, `'under'` exactly when `target_ontime`
elapsed (the two outcomes are mutually exclusive and exhaustive, and no
earlier poll had triggered the sensor or reached the target). -/
theorem addMedia_over_under (target_ontime : ℚ) (obs : ℕ → ℚ) (wl : ℕ → Bool)
    (fuel : ℕ) (s : SysState) (j : ℕ)
    (hj : firstFail (pumpGuard target_ontime obs wl) fuel = some j) :
    (addMedia target_ontime obs wl fuel s
      = some ({ s with cycle_data :=
          { s.cycle_data with
              inlet_ontime := obs j,
              state := if obs j < target_ontime then "over" else "under" } }, true)) ∧
    ((if obs j < target_ontime then "over" else "under") = "over"
        ↔ obs j < target_ontime ∧ wl j = true) ∧
    ((if obs j < target_ontime then "over" else "under") = "under"
        ↔ target_ontime ≤ obs j) ∧
    (∀ k, k < j → wl k = false ∧ obs k < target_ontime) := by
  obtain ⟨hgj, hmin⟩ := firstFail_eq_some hj
  have hover : obs j < target_ontime → wl j = true := by
    intro hlt
    simpa [pumpGuard, hlt] using hgj
  refine ⟨?_, ?_, ?_, ?_⟩
  · by_cases hlt : obs j < target_ontime <;>
      · simp only [addMedia, hj]
        simp [hlt]
  · constructor
    · intro hov
      have hlt : obs j < target_ontime := by
        by_contra hge
        rw [if_neg hge] at hov
        exact absurd hov (by decide)
      exact ⟨hlt, hover hlt⟩
    · rintro ⟨hlt, -⟩
      rw [if_pos hlt]
  · constructor
    · intro hun
      by_contra hge
      rw [if_pos (lt_of_not_ge hge)] at hun
      exact absurd hun (by decide)
    · intro hge
      rw [if_neg (not_lt_of_ge hge)]
  · intro k hk
    have hg := hmin k hk
    simp [pumpGuard] at hg
    exact ⟨hg.2, hg.1⟩

/-- C5 witness: a concrete fill pass in which the target elapses before
the sensor triggers, classified `'under'`. -/
theorem addMedia_over_under_witness :
    (addMedia 1 wObsW wlFalseW 2 (initSysState 0)
      = some ({ initSysState 0 with cycle_data :=
          { (initSysState 0).cycle_data with
              inlet_ontime := wObsW 1,
              state := if wObsW 1 < 1 then "over" else "under" } }, true)) ∧
    ((if wObsW 1 < 1 then "over" else "under") = "over"
        ↔ wObsW 1 < 1 ∧ wlFalseW 1 = true) ∧
    ((if wObsW 1 < 1 then "over" else "under") = "under" ↔ 1 ≤ wObsW 1) ∧
    (∀ k, k < 1 → wlFalseW k = false ∧ wObsW k < 1) :=
  addMedia_over_under 1 wObsW wlFalseW 2 (initSysState 0) 1 (by decide)

/-- A scheduler check either advances the schedule by one step
(`_iterate_cycles`) or leaves it untouched. -/
theorem cycleCheck_sched_cases (now : ℚ) (flow : SysState → Option (SysState × Bool))
    (c : SchedState) (s : SysState) (out : SchedState × SysState × Bool)
    (hrun : cycleCheck now flow c s = some out) :
    out.1 = iterateCycles c ∨ out.1 = c := by
  simp only [cycleCheck] at hrun
  repeat' split at hrun
  all_goals
    first
    | exact Option.noConfusion hrun
    | (injection hrun with h2
       rw [← h2]
       first
       | exact Or.inl rfl
       | exact Or.inr rfl)

/-- C6: with a positive cycle rate the schedule interval is positive, so
`next_cycle_time < next_next_cycle_time` holds at construction, and any
scheduler check that returns preserves the invariant (it only ever
replaces the pair by `(next_next, next_next + time_between_cycles)`). -/
theorem scheduler_interval_invariant
    (volume flow_rate cycles_per_hour now0 first_cycle_delay : ℚ) (do_cycle_delay : Bool)
    (now : ℚ) (flow : SysState → Option (SysState × Bool))
    (c : SchedState) (s : SysState) (out : SchedState × SysState × Bool)
    (hcph : 0 < cycles_per_hour)
    (htbc : 0 < c.timeBetweenCycles)
    (hpre : c.nextCycleTime < c.nextNextCycleTime)
    (hrun : cycleCheck now flow c s = some out) :
    (initSched volume flow_rate cycles_per_hour now0 first_cycle_delay do_cycle_delay).nextCycleTime
      < (initSched volume flow_rate cycles_per_hour now0 first_cycle_delay do_cycle_delay).nextNextCycleTime ∧
    out.1.nextCycleTime < out.1.nextNextCycleTime := by
  constructor
  · have h60 : (0:ℚ) < 60 / cycles_per_hour := div_pos (by norm_num) hcph
    simp only [initSched]
    split <;> linarith
  · rcases cycleCheck_sched_cases now flow c s out hrun with h | h <;> rw [h]
    · simp only [iterateCycles]
      linarith
    · exact hpre

/-- Concrete schedule state for the scheduler witnesses. -/
def cW6 : SchedState :=
  { nextCycleTime := 0, nextNextCycleTime := 30, timeBetweenCycles := 30, flowPerCycle := 55 }

/-- C6 witness: the invariant at a concrete construction and across a
concrete quiescent check (neither due time has passed). -/
theorem scheduler_interval_invariant_witness :
    (initSched 550 (1/10) 2 0 0 false).nextCycleTime
      < (initSched 550 (1/10) 2 0 0 false).nextNextCycleTime ∧
    (cW6, initSysState 0, false).1.nextCycleTime
      < (cW6, initSysState 0, false).1.nextNextCycleTime :=
  scheduler_interval_invariant 550 (1/10) 2 0 0 false 0 flowW cW6 (initSysState 0)
    (cW6, initSysState 0, false) (by decide) (by decide) (by decide) (by decide)

/-- C7: a scheduler check invoked after `next_next_cycle_time` has
passed leaves the system in the error mode and does not begin a cycle;
and a scheduler check made while the system is in the error mode never
begins a new Cycle Record or invokes the phase state machine (the third
component of the result records whether the `flow_cycle` block ran, and
the Cycle Record is returned untouched). -/
theorem cycleCheck_deadline_error_gate (now : ℚ)
    (flow : SysState → Option (SysState × Bool)) (c : SchedState) (s : SysState) :
    (c.nextNextCycleTime < now →
      (cycleCheck now flow c s).map (fun o => (o.2.1.system_state, o.2.2))
        = some ("error", false)) ∧
    (s.system_state = "error" →
      (cycleCheck now flow c s).map (fun o => (o.2.1.cycle_data, o.2.2))
        = some (s.cycle_data, false)) := by
  constructor
  · intro hnn
    by_cases hb : c.nextCycleTime < now <;>
      simp [cycleCheck, hnn, hb, setNextCycle, setErrorState]
  · intro hs
    by_cases hnn : c.nextNextCycleTime < now <;>
      by_cases hb : c.nextCycleTime < now <;>
        simp [cycleCheck, hnn, hb, hs, setNextCycle, setErrorState]

/-- Concrete schedule state whose second due time has already passed at
instant 2. -/
def cW7 : SchedState :=
  { nextCycleTime := 0, nextNextCycleTime := 1, timeBetweenCycles := 5, flowPerCycle := 2 }

/-- C7 witness: a concrete missed-deadline check on an already-errored
system neither leaves the error mode nor starts a cycle. -/
theorem cycleCheck_deadline_error_gate_witness :
    ((cycleCheck 2 flowW cW7 sErrW).map (fun o => (o.2.1.system_state, o.2.2))
        = some ("error", false)) ∧
    ((cycleCheck 2 flowW cW7 sErrW).map (fun o => (o.2.1.cycle_data, o.2.2))
        = some (sErrW.cycle_data, false)) :=
  ⟨(cycleCheck_deadline_error_gate 2 flowW cW7 sErrW).1 (by decide),
   (cycleCheck_deadline_error_gate 2 flowW cW7 sErrW).2 rfl⟩

/-- A calibration pass that reports success has set the cycle record's
phase to `'done'`. -/
theorem calibrate_true_done (flow_per_cycle : ℚ) (obs : ℕ → ℚ) (wl : ℕ → Bool)
    (fuel : ℕ) (now : ℚ) (s s' : SysState)
    (h : calibrate flow_per_cycle obs wl fuel now s = some (s', true)) :
    s'.cycle_data.state = "done" := by
  simp only [calibrate] at h
  repeat' split at h
  all_goals
    first
    | exact Option.noConfusion h
    | (injection h with h2
       injection h2 with h3 h4
       first
       | exact Bool.noConfusion h4
       | (rw [← h3]
          try rfl))

/-- C8: a cycle whose phase state machine reports success ends with the
Cycle Record in phase `'done'`, and folding it with
`update_dispensed_volumes` returns normally, increases the cumulative
totals by exactly `inlet_ontime * MEDIA_IN_FLOWRATE` and
`outlet_ontime * MEDIA_OUT_FLOWRATE` of the final record, and resets the
record's phase to `'inactive'`. -/
theorem flowCycle_success_fold (fpc : ℚ) (dObs : ℕ → ℚ) (dWl : ℕ → Bool)
    (fObs : ℕ → ℚ) (fWl : ℕ → Bool) (cObs : ℕ → ℚ) (cWl : ℕ → Bool)
    (fuel : ℕ) (now : ℚ) (s s' : SysState)
    (h : flowCycle fpc dObs dWl fObs fWl cObs cWl fuel now s = some (s', true)) :
    s'.cycle_data.state = "done" ∧
    (updateDispensedVolumes s').2 = none ∧
    (updateDispensedVolumes s').1.total_media_in
      = s'.total_media_in + MEDIA_IN_FLOWRATE * s'.cycle_data.inlet_ontime ∧
    (updateDispensedVolumes s').1.total_media_out
      = s'.total_media_out + MEDIA_OUT_FLOWRATE * s'.cycle_data.outlet_ontime ∧
    (updateDispensedVolumes s').1.cycle_data.state = "inactive" := by
  have hdone : s'.cycle_data.state = "done" := by
    simp only [flowCycle] at h
    repeat' split at h
    all_goals
      first
      | exact Option.noConfusion h
      | (injection h with h2
         injection h2 with h3 h4
         exact Bool.noConfusion h4)
      | exact calibrate_true_done _ _ _ _ _ _ _ h
  refine ⟨hdone, ?_, ?_, ?_, ?_⟩ <;>
    simp [updateDispensedVolumes, hdone, CycleData.getInVol, CycleData.getOutVol]

/-- Final state of the concrete successful cycle used as C8's witness. -/
def sC8W : SysState :=
  { system_state := "standby"
    error_description := "No recorded error."
    error_time := none
    total_media_in := 0
    total_media_out := 0
    cycle_data :=
      { target_exchange_vol := 0, inlet_ontime := 1, outlet_ontime := 0, state := "done" }
    next_cycle := 0 }

/-- C8 witness: a concrete cycle (drain to target, fill to target
without the sensor, calibration stopped immediately by the sensor)
succeeds and folds as claimed. -/
theorem flowCycle_success_fold_witness :
    sC8W.cycle_data.state = "done" ∧
    (updateDispensedVolumes sC8W).2 = none ∧
    (updateDispensedVolumes sC8W).1.total_media_in
      = sC8W.total_media_in + MEDIA_IN_FLOWRATE * sC8W.cycle_data.inlet_ontime ∧
    (updateDispensedVolumes sC8W).1.total_media_out
      = sC8W.total_media_out + MEDIA_OUT_FLOWRATE * sC8W.cycle_data.outlet_ontime ∧
    (updateDispensedVolumes sC8W).1.cycle_data.state = "inactive" :=
  flowCycle_success_fold MEDIA_OUT_FLOWRATE wObsW wlFalseW wObsW wlFalseW obsZeroW
    wlTrueW 2 0 (initSysState 0) sC8W
    (by have ht : MEDIA_OUT_FLOWRATE / MEDIA_OUT_FLOWRATE = (1:ℚ) := by
          norm_num [MEDIA_OUT_FLOWRATE]
        have hc : MEDIA_OUT_FLOWRATE / MEDIA_IN_FLOWRATE = (1:ℚ) := by
          norm_num [MEDIA_OUT_FLOWRATE, MEDIA_IN_FLOWRATE]
        simp only [flowCycle, removeMedia, addMedia, calibrate, ht, hc]
        decide)

/-- C9: if the water-level sensor still reads exceeded at the poll at
which the drain loop exits, the system enters the error mode with the
post-drain description, the Cycle Record's phase remains `'drain'`
(never reaching `'fill'`), the cycle is reported failed, and the
cumulative totals are unchanged (the volumes are never folded, since
`update_dispensed_volumes` only runs on a successful cycle). -/
theorem flowCycle_drain_postcheck (fpc : ℚ) (dObs : ℕ → ℚ) (dWl : ℕ → Bool)
    (fObs : ℕ → ℚ) (fWl : ℕ → Bool) (cObs : ℕ → ℚ) (cWl : ℕ → Bool)
    (fuel : ℕ) (now : ℚ) (s : SysState) (j : ℕ)
    (hj : firstFail (drainGuard (fpc / MEDIA_OUT_FLOWRATE) dObs) fuel = some j)
    (hw : dWl j = true) :
    (flowCycle fpc dObs dWl fObs fWl cObs cWl fuel now s).map
        (fun p => (p.1.system_state, p.1.error_description, p.1.cycle_data.state,
                   p.1.total_media_in, p.1.total_media_out, p.2))
      = some ("error", "Water level exceeded even after media removal.", "drain",
              s.total_media_in, s.total_media_out, false) := by
  simp only [flowCycle, removeMedia, hj]
  simp [hw, setErrorState]

/-- C9 witness: a concrete drain pass after which the sensor still reads
exceeded. -/
theorem flowCycle_drain_postcheck_witness :
    (flowCycle MEDIA_OUT_FLOWRATE wObsW wlTrueW wObsW wlFalseW obsZeroW wlTrueW 2 0
        (initSysState 0)).map
        (fun p => (p.1.system_state, p.1.error_description, p.1.cycle_data.state,
                   p.1.total_media_in, p.1.total_media_out, p.2))
      = some ("error", "Water level exceeded even after media removal.", "drain",
              (initSysState 0).total_media_in, (initSysState 0).total_media_out, false) :=
  flowCycle_drain_postcheck MEDIA_OUT_FLOWRATE wObsW wlTrueW wObsW wlFalseW obsZeroW
    wlTrueW 2 0 (initSysState 0) 1
    (by rw [(by norm_num [MEDIA_OUT_FLOWRATE] :
          MEDIA_OUT_FLOWRATE / MEDIA_OUT_FLOWRATE = (1:ℚ))]
        decide)
    rfl
